import Mathlib

/-!
Shallow embedding of the seminar/workshop manager registration,
attendance, certificate and cascade-deletion handlers.

The entity store (PostgreSQL via drizzle) is modelled as lists of rows
per table inside a `DBState`; store-assigned serial ids come from a
single monotone counter `nextId`, and timestamps are abstract `Nat`
instants passed to each operation as `now`.  Each handler is a pure
function from a state (plus its input) to a result together with the
successor state; a thrown error leaves the state unchanged, mirroring
the fact that the handlers throw before any insert/update is issued.

Sources embedded:
  * createRegistration   (handlers/create_registration, real implementation)
  * updateAttendance     (handlers/update_attendance, real implementation)
  * generateCertificate  (handlers/generate_certificate, real implementation)
  * deleteSeminar        (handlers/delete_seminar)
-/

namespace SeminarManager

/-- The `user_role` enum of the schema. -/
inductive Role where
  | admin
  | participant
  | speaker
deriving DecidableEq, Repr

/-- The `registration_type` enum of the schema. -/
inductive RegistrationType where
  | free
  | approval_required
  | payment_required
deriving DecidableEq, Repr

/-- The `registration_status` enum of the schema. -/
inductive RegistrationStatus where
  | pending
  | approved
  | rejected
  | paid
  | cancelled
deriving DecidableEq, Repr

/-- A row of the `users` table. -/
structure User where
  id : Nat
  name : String
  email : String
  role : Role
  password : String
  created_at : Nat
deriving DecidableEq, Repr

/-- A row of the `seminars` table.  `cost` is the numeric(10,2) column in
fixed-point cents, `none` for free events. -/
structure Seminar where
  id : Nat
  title : String
  description : String
  date : Nat
  time : String
  location : String
  speaker_id : Nat
  capacity : Nat
  cost : Option Int
  registration_type : RegistrationType
  created_at : Nat
deriving DecidableEq, Repr

/-- A row of the `registrations` table. -/
structure Registration where
  id : Nat
  seminar_id : Nat
  participant_id : Nat
  registration_date : Nat
  status : RegistrationStatus
  created_at : Nat
deriving DecidableEq, Repr

/-- A row of the `attendance` table. -/
structure Attendance where
  id : Nat
  registration_id : Nat
  attended : Bool
  attendance_date : Nat
  created_at : Nat
deriving DecidableEq, Repr

/-- A row of the `certificates` table. -/
structure Certificate where
  id : Nat
  registration_id : Nat
  issue_date : Nat
  certificate_url : String
  created_at : Nat
deriving DecidableEq, Repr

/-- The entity store: one list of rows per table, plus the serial-id
counter used for inserted rows. -/
structure DBState where
  users : List User
  seminars : List Seminar
  registrations : List Registration
  attendance : List Attendance
  certificates : List Certificate
  nextId : Nat
deriving DecidableEq, Repr

/-- Errors thrown by `createRegistration`. -/
inductive RegistrationError where
  | participantNotFound
  | invalidRole
  | seminarNotFound
  | duplicateRegistration
  | capacityExceeded
deriving DecidableEq, Repr

/-- Errors thrown by `updateAttendance`. -/
inductive AttendanceError where
  | registrationNotFound
  | invalidRegistrationState
deriving DecidableEq, Repr

/-- Errors thrown by `generateCertificate`. -/
inductive CertificateError where
  | registrationNotFound
  | invalidRegistrationState
  | didNotAttend
deriving DecidableEq, Repr

/-- The zod input `CreateRegistrationInput`: seminar id, participant id and a
caller-supplied status (defaulted to `pending` by the schema). -/
structure CreateRegistrationInput where
  seminar_id : Nat
  participant_id : Nat
  status : RegistrationStatus
deriving DecidableEq, Repr

/-- The zod input `UpdateAttendanceInput`. -/
structure UpdateAttendanceInput where
  registration_id : Nat
  attended : Bool
deriving DecidableEq, Repr

/-- The count of approved-or-paid registrations of a seminar, exactly as
computed in `create_registration`: select the registrations of the seminar,
filter status `approved` or `paid`, take the length. -/
def activeRegistrationCount (st : DBState) (sid : Nat) : Nat :=
  ((st.registrations.filter (fun r => r.seminar_id == sid)).filter
    (fun r => r.status == RegistrationStatus.approved
      || r.status == RegistrationStatus.paid)).length

/-- The initial-status computation inlined in `create_registration`:
start from the caller-supplied status, override with `approved` for a
free seminar and with `pending` for approval- or payment-required. -/
def computeInitialStatus (regType : RegistrationType)
    (inputStatus : RegistrationStatus) : RegistrationStatus :=
  if regType = RegistrationType.free then RegistrationStatus.approved
  else if regType = RegistrationType.approval_required
      ∨ regType = RegistrationType.payment_required then
    RegistrationStatus.pending
  else inputStatus

/-- The `createRegistration` handler: validate the participant (existence and
role), the seminar, the absence of ANY registration for the same
(seminar, participant) pair, and the capacity bound on approved/paid
registrations, then insert a row whose status comes from
`computeInitialStatus`. -/
def createRegistration (st : DBState) (input : CreateRegistrationInput)
    (now : Nat) : Except RegistrationError Registration × DBState :=
  match st.users.find? (fun u => u.id == input.participant_id) with
  | none => (Except.error RegistrationError.participantNotFound, st)
  | some participant =>
    if participant.role ≠ Role.participant then
      (Except.error RegistrationError.invalidRole, st)
    else
      match st.seminars.find? (fun s => s.id == input.seminar_id) with
      | none => (Except.error RegistrationError.seminarNotFound, st)
      | some seminar =>
        if st.registrations.any (fun r =>
            r.seminar_id == input.seminar_id
              && r.participant_id == input.participant_id) then
          (Except.error RegistrationError.duplicateRegistration, st)
        else if seminar.capacity ≤ activeRegistrationCount st input.seminar_id then
          (Except.error RegistrationError.capacityExceeded, st)
        else
          let reg : Registration :=
            { id := st.nextId
              seminar_id := input.seminar_id
              participant_id := input.participant_id
              registration_date := now
              status := computeInitialStatus seminar.registration_type input.status
              created_at := now }
          (Except.ok reg,
            { st with registrations := st.registrations ++ [reg]
                      nextId := st.nextId + 1 })

/-- The attendance row inserted by `updateAttendance` when the
registration has no row yet. -/
def newAttendance (st : DBState) (rid : Nat) (attended : Bool)
    (now : Nat) : Attendance :=
  { id := st.nextId
    registration_id := rid
    attended := attended
    attendance_date := now
    created_at := now }

/-- The `updateAttendance` handler: validate the registration and its status
(`approved` or `paid`), then upsert the attendance row: update every row
of the registration in place when one exists, insert a fresh row
otherwise. -/
def updateAttendance (st : DBState) (input : UpdateAttendanceInput)
    (now : Nat) : Except AttendanceError Attendance × DBState :=
  match st.registrations.find? (fun r => r.id == input.registration_id) with
  | none => (Except.error AttendanceError.registrationNotFound, st)
  | some reg =>
    if reg.status ≠ RegistrationStatus.approved
        ∧ reg.status ≠ RegistrationStatus.paid then
      (Except.error AttendanceError.invalidRegistrationState, st)
    else
      match st.attendance.find? (fun a => a.registration_id == input.registration_id) with
      | some a0 =>
        (Except.ok { a0 with attended := input.attended, attendance_date := now },
          { st with attendance := st.attendance.map (fun a =>
              if a.registration_id == input.registration_id then
                { a with attended := input.attended, attendance_date := now }
              else a) })
      | none =>
        (Except.ok (newAttendance st input.registration_id input.attended now),
          { st with
            attendance := st.attendance
              ++ [newAttendance st input.registration_id input.attended now]
            nextId := st.nextId + 1 })

/-- The certificate row inserted by `generateCertificate`, with the URL
built from the registration id and the current timestamp exactly as in
the source. -/
def newCertificate (st : DBState) (rid : Nat) (now : Nat) : Certificate :=
  { id := st.nextId
    registration_id := rid
    issue_date := now
    certificate_url := "/certificates/cert_" ++ toString rid
      ++ "_" ++ toString now ++ ".txt"
    created_at := now }

/-- The `generateCertificate` handler: resolve the registration through the
inner joins with its seminar and participant, gate on status and on an
attendance row with attended = true, then either return the already
existing certificate unchanged or insert a new one whose URL is derived
from the registration id and the current timestamp. -/
def generateCertificate (st : DBState) (registration_id : Nat)
    (now : Nat) : Except CertificateError Certificate × DBState :=
  match st.registrations.find? (fun r => r.id == registration_id) with
  | none => (Except.error CertificateError.registrationNotFound, st)
  | some reg =>
    match st.seminars.find? (fun s => s.id == reg.seminar_id),
        st.users.find? (fun u => u.id == reg.participant_id) with
    | some _, some _ =>
      if reg.status = RegistrationStatus.pending
          ∨ reg.status = RegistrationStatus.rejected
          ∨ reg.status = RegistrationStatus.cancelled then
        (Except.error CertificateError.invalidRegistrationState, st)
      else if st.attendance.filter (fun a =>
          a.registration_id == registration_id && a.attended) = [] then
        (Except.error CertificateError.didNotAttend, st)
      else
        match st.certificates.find? (fun c => c.registration_id == registration_id) with
        | some c => (Except.ok c, st)
        | none =>
          (Except.ok (newCertificate st registration_id now),
            { st with
              certificates := st.certificates
                ++ [newCertificate st registration_id now]
              nextId := st.nextId + 1 })
    | _, _ => (Except.error CertificateError.registrationNotFound, st)

/-- The `deleteSeminar` handler: return false when the seminar is absent,
otherwise delete the certificates and attendance rows of each of the
registrations of the seminar, then the registrations, then the seminar, and
return true.  The per-registration deletions are guarded by the
non-emptiness check made in the source. -/
def deleteSeminar (st : DBState) (sid : Nat) : Bool × DBState :=
  match st.seminars.find? (fun s => s.id == sid) with
  | none => (false, st)
  | some _ =>
    let regIds := (st.registrations.filter (fun r => r.seminar_id == sid)).map
      (fun r => r.id)
    let st1 :=
      if regIds.isEmpty then st
      else
        { st with
            certificates := st.certificates.filter (fun c =>
              ! regIds.contains c.registration_id)
            attendance := st.attendance.filter (fun a =>
              ! regIds.contains a.registration_id)
            registrations := st.registrations.filter (fun r =>
              ! (r.seminar_id == sid)) }
    (true, { st1 with seminars := st1.seminars.filter (fun s => ! (s.id == sid)) })

/-! ### Concrete example rows and states used by the witnesses. -/

/-- Example user with role `participant`. -/
def egParticipant : User :=
  { id := 1, name := "Pat", email := "pat@example.com", role := Role.participant,
    password := "pw", created_at := 0 }

/-- A second user with role `participant`. -/
def egOtherParticipant : User :=
  { id := 2, name := "Quinn", email := "quinn@example.com", role := Role.participant,
    password := "pw", created_at := 0 }

/-- Example user with role `speaker`. -/
def egSpeaker : User :=
  { id := 3, name := "Sky", email := "sky@example.com", role := Role.speaker,
    password := "pw", created_at := 0 }

/-- A free seminar with capacity 1. -/
def egFreeSeminar : Seminar :=
  { id := 10, title := "Intro", description := "d", date := 1, time := "09:00",
    location := "Hall", speaker_id := 3, capacity := 1, cost := none,
    registration_type := RegistrationType.free, created_at := 0 }

/-- Base state: the three users and the free seminar, no other rows. -/
def egBaseSt : DBState :=
  { users := [egParticipant, egOtherParticipant, egSpeaker],
    seminars := [egFreeSeminar], registrations := [], attendance := [],
    certificates := [], nextId := 100 }

/-- An approved registration of `egParticipant` for the free seminar. -/
def egApprovedReg : Registration :=
  { id := 51, seminar_id := 10, participant_id := 1, registration_date := 0,
    status := RegistrationStatus.approved, created_at := 0 }

/-- A cancelled registration of `egParticipant` for the free seminar. -/
def egCancelledReg : Registration :=
  { id := 50, seminar_id := 10, participant_id := 1, registration_date := 0,
    status := RegistrationStatus.cancelled, created_at := 0 }

/-- A pending registration of `egParticipant` for the free seminar. -/
def egPendingReg : Registration :=
  { id := 52, seminar_id := 10, participant_id := 1, registration_date := 0,
    status := RegistrationStatus.pending, created_at := 0 }

/-- Base state plus the approved registration. -/
def egApprovedSt : DBState := { egBaseSt with registrations := [egApprovedReg] }

/-- Base state plus the cancelled registration. -/
def egCancelledSt : DBState := { egBaseSt with registrations := [egCancelledReg] }

/-- Base state plus the pending registration. -/
def egPendingSt : DBState := { egBaseSt with registrations := [egPendingReg] }

/-! ### Claims -/

/-- Closed form of the initial-status computation: the registration-type
branches cover every constructor, so the caller-supplied status is dead. -/
theorem computeInitialStatus_eq (t : RegistrationType) (s : RegistrationStatus) :
    computeInitialStatus t s
      = if t = RegistrationType.free then RegistrationStatus.approved
        else RegistrationStatus.pending := by
  cases t <;> rfl

/-- Claim C2: for every successful createRegistration call the stored
status is determined solely by the registration_type of the seminar —
`approved` for `free`, `pending` for `approval_required` or
`payment_required` — and the caller-supplied status never influences the
outcome of the call. -/
theorem createRegistration_initial_status (st : DBState)
    (input : CreateRegistrationInput) (now : Nat) (seminar : Seminar)
    (hsem : st.seminars.find? (fun s => s.id == input.seminar_id) = some seminar) :
    (∀ reg st2, createRegistration st input now = (Except.ok reg, st2) →
      reg.status = (match seminar.registration_type with
        | RegistrationType.free => RegistrationStatus.approved
        | RegistrationType.approval_required => RegistrationStatus.pending
        | RegistrationType.payment_required => RegistrationStatus.pending)) ∧
    (∀ s1 s2 : RegistrationStatus,
      createRegistration st
          { seminar_id := input.seminar_id, participant_id := input.participant_id,
            status := s1 } now
        = createRegistration st
          { seminar_id := input.seminar_id, participant_id := input.participant_id,
            status := s2 } now) := by
  constructor
  · intro reg st2 h
    unfold createRegistration at h
    split at h
    · simp at h
    next participant hu =>
      split at h
      · simp at h
      next hrole =>
        split at h
        · simp at h
        next seminar2 hsem2 =>
          split at h
          · simp at h
          split at h
          · simp at h
          · rw [hsem] at hsem2
            injection hsem2 with hs
            subst hs
            simp only [Prod.mk.injEq, Except.ok.injEq] at h
            obtain ⟨hreg, -⟩ := h
            subst hreg
            simp only [computeInitialStatus]
            cases seminar.registration_type <;> simp
  · intro s1 s2
    unfold createRegistration
    simp only [computeInitialStatus_eq]

/-- Witness for C2: in the base state a creation attempt for the free
seminar succeeds and stores status `approved` even though the caller
supplied `rejected`. -/
theorem createRegistration_initial_status_witness :
    (createRegistration egBaseSt
        { seminar_id := 10, participant_id := 1,
          status := RegistrationStatus.rejected } 5).1
        = Except.ok
          { id := 100, seminar_id := 10, participant_id := 1,
            registration_date := 5, status := RegistrationStatus.approved,
            created_at := 5 } ∧
    ({ id := 100, seminar_id := 10, participant_id := 1, registration_date := 5,
       status := RegistrationStatus.approved,
       created_at := 5 } : Registration).status = RegistrationStatus.approved :=
  ⟨rfl,
    (createRegistration_initial_status egBaseSt
        { seminar_id := 10, participant_id := 1,
          status := RegistrationStatus.rejected } 5 egFreeSeminar rfl).1
      _ _ rfl⟩

/-- Claim C1: given a resolvable participant with role `participant`, a
resolvable seminar and no blocking duplicate, createRegistration fails
with `capacityExceeded` exactly when the count of approved-or-paid
registrations of the seminar is at least its capacity; a pending,
rejected or cancelled registration contributes nothing to that count,
and the call preserves the bound of that count by the capacity. -/
theorem createRegistration_capacity (st : DBState)
    (input : CreateRegistrationInput) (now : Nat) (participant : User)
    (seminar : Seminar)
    (hu : st.users.find? (fun u => u.id == input.participant_id) = some participant)
    (hrole : participant.role = Role.participant)
    (hsem : st.seminars.find? (fun s => s.id == input.seminar_id) = some seminar)
    (hdup : st.registrations.any (fun r => r.seminar_id == input.seminar_id
      && r.participant_id == input.participant_id) = false) :
    ((createRegistration st input now).1
        = Except.error RegistrationError.capacityExceeded
      ↔ seminar.capacity ≤ activeRegistrationCount st input.seminar_id) ∧
    (∀ r : Registration, r.status = RegistrationStatus.pending
        ∨ r.status = RegistrationStatus.rejected
        ∨ r.status = RegistrationStatus.cancelled →
      activeRegistrationCount
          { st with registrations := r :: st.registrations } input.seminar_id
        = activeRegistrationCount st input.seminar_id) ∧
    (activeRegistrationCount st input.seminar_id ≤ seminar.capacity →
      activeRegistrationCount (createRegistration st input now).2 input.seminar_id
        ≤ seminar.capacity) := by
  refine ⟨?_, ?_, ?_⟩
  · by_cases hcap : seminar.capacity ≤ activeRegistrationCount st input.seminar_id
    · simp [createRegistration, hu, hrole, hsem, hdup, hcap]
    · simp [createRegistration, hu, hrole, hsem, hdup, hcap]
  · intro r hr
    rcases hr with h | h | h <;>
      cases hseq : r.seminar_id == input.seminar_id <;>
        simp [activeRegistrationCount, List.filter_cons, hseq, h]
  · intro hle
    by_cases hcap : seminar.capacity ≤ activeRegistrationCount st input.seminar_id
    · simpa [createRegistration, hu, hrole, hsem, hdup, hcap] using hle
    · have hst : (createRegistration st input now).2
          = { st with
              registrations := st.registrations
                ++ [{ id := st.nextId, seminar_id := input.seminar_id,
                      participant_id := input.participant_id,
                      registration_date := now,
                      status := computeInitialStatus seminar.registration_type
                        input.status,
                      created_at := now }],
              nextId := st.nextId + 1 } := by
        simp [createRegistration, hu, hrole, hsem, hdup, hcap]
      rw [hst]
      simp [activeRegistrationCount, List.filter_append]
      simp [activeRegistrationCount] at hcap hle
      have h1 := le_trans
        (List.length_filter_le
          (fun r : Registration => r.status == RegistrationStatus.approved
            || r.status == RegistrationStatus.paid)
          (List.filter (fun r : Registration => r.seminar_id == input.seminar_id)
            ([{ id := st.nextId, seminar_id := input.seminar_id,
                participant_id := input.participant_id,
                registration_date := now,
                status := computeInitialStatus seminar.registration_type
                  input.status,
                created_at := now }] : List Registration)))
        (List.length_filter_le _ _)
      simp at h1
      omega

/-- Witness for C1: the free seminar has capacity 1 and one approved
registration, so an attempt by a second participant fails with the
capacity-exceeded error. -/
theorem createRegistration_capacity_witness :
    (createRegistration egApprovedSt
        { seminar_id := 10, participant_id := 2,
          status := RegistrationStatus.pending } 5).1
      = Except.error RegistrationError.capacityExceeded :=
  (createRegistration_capacity egApprovedSt
      { seminar_id := 10, participant_id := 2,
        status := RegistrationStatus.pending } 5 egOtherParticipant
      egFreeSeminar rfl rfl rfl rfl).1.mpr (by decide)

/-- Claim C3: given a resolvable participant with role `participant` and
a resolvable seminar, createRegistration fails with the duplicate error
exactly when some existing registration — of any status, cancelled
included — has the same (seminar_id, participant_id) pair, and on that
failure the state is unchanged (no row inserted). -/
theorem createRegistration_duplicate (st : DBState)
    (input : CreateRegistrationInput) (now : Nat) (participant : User)
    (seminar : Seminar)
    (hu : st.users.find? (fun u => u.id == input.participant_id) = some participant)
    (hrole : participant.role = Role.participant)
    (hsem : st.seminars.find? (fun s => s.id == input.seminar_id) = some seminar) :
    ((createRegistration st input now).1
        = Except.error RegistrationError.duplicateRegistration
      ↔ ∃ r ∈ st.registrations, r.seminar_id = input.seminar_id
          ∧ r.participant_id = input.participant_id) ∧
    ((createRegistration st input now).1
        = Except.error RegistrationError.duplicateRegistration →
      (createRegistration st input now).2 = st) := by
  cases hdup : st.registrations.any (fun r => r.seminar_id == input.seminar_id
      && r.participant_id == input.participant_id) with
  | true =>
    have hex : ∃ r ∈ st.registrations, r.seminar_id = input.seminar_id
        ∧ r.participant_id = input.participant_id := by
      have h := List.any_eq_true.mp hdup
      simpa using h
    constructor
    · refine ⟨fun _ => hex, fun _ => ?_⟩
      simp [createRegistration, hu, hrole, hsem, hdup]
    · intro _
      simp [createRegistration, hu, hrole, hsem, hdup]
  | false =>
    have hne : ¬ ∃ r ∈ st.registrations, r.seminar_id = input.seminar_id
        ∧ r.participant_id = input.participant_id := by
      have h := List.any_eq_false.mp hdup
      simpa using h
    by_cases hcap : seminar.capacity ≤ activeRegistrationCount st input.seminar_id
    · constructor
      · constructor
        · intro h
          simp [createRegistration, hu, hrole, hsem, hdup, hcap] at h
        · intro h
          exact absurd h hne
      · intro h
        simp [createRegistration, hu, hrole, hsem, hdup, hcap] at h
    · constructor
      · constructor
        · intro h
          simp [createRegistration, hu, hrole, hsem, hdup, hcap] at h
        · intro h
          exact absurd h hne
      · intro h
        simp [createRegistration, hu, hrole, hsem, hdup, hcap] at h

/-- Witness for C3: the participant whose only registration for the
seminar is cancelled is blocked from re-registering, and the failed call
leaves the state unchanged. -/
theorem createRegistration_duplicate_witness :
    (createRegistration egCancelledSt
        { seminar_id := 10, participant_id := 1,
          status := RegistrationStatus.pending } 5).1
      = Except.error RegistrationError.duplicateRegistration ∧
    (createRegistration egCancelledSt
        { seminar_id := 10, participant_id := 1,
          status := RegistrationStatus.pending } 5).2 = egCancelledSt := by
  have h := createRegistration_duplicate egCancelledSt
    { seminar_id := 10, participant_id := 1,
      status := RegistrationStatus.pending } 5 egParticipant egFreeSeminar
    rfl rfl rfl
  have hex : ∃ r ∈ egCancelledSt.registrations,
      r.seminar_id = 10 ∧ r.participant_id = 1 :=
    ⟨egCancelledReg, by decide, rfl, rfl⟩
  exact ⟨h.1.mpr hex, h.2 (h.1.mpr hex)⟩

/-- Claim C4: a cancelled registration does not occupy a slot — with
capacity 1 and a single cancelled registration on the seminar, a second
createRegistration by a second participant succeeds. -/
theorem createRegistration_cancelled_frees_slot :
    egFreeSeminar.capacity = 1 ∧
    egCancelledSt.registrations = [egCancelledReg] ∧
    egCancelledReg.status = RegistrationStatus.cancelled ∧
    egCancelledReg.seminar_id = egFreeSeminar.id ∧
    (createRegistration egCancelledSt
        { seminar_id := 10, participant_id := 2,
          status := RegistrationStatus.pending } 5).1
      = Except.ok
        { id := 100, seminar_id := 10, participant_id := 2,
          registration_date := 5, status := RegistrationStatus.approved,
          created_at := 5 } :=
  ⟨rfl, rfl, rfl, rfl, rfl⟩

/-- Claim C8: updateAttendance fails with `registrationNotFound` when the
registration id is unresolved, and with `invalidRegistrationState` when
the status of the registration is neither `approved` nor `paid`; in either
case the state — in particular the attendance table — is unchanged. -/
theorem updateAttendance_errors (st : DBState) (input : UpdateAttendanceInput)
    (now : Nat) :
    (st.registrations.find? (fun r => r.id == input.registration_id) = none →
      updateAttendance st input now
        = (Except.error AttendanceError.registrationNotFound, st)) ∧
    (∀ reg, st.registrations.find? (fun r => r.id == input.registration_id)
        = some reg →
      reg.status ≠ RegistrationStatus.approved →
      reg.status ≠ RegistrationStatus.paid →
      updateAttendance st input now
        = (Except.error AttendanceError.invalidRegistrationState, st)) := by
  constructor
  · intro h
    simp [updateAttendance, h]
  · intro reg h h1 h2
    simp [updateAttendance, h, h1, h2]

/-- Witness for C8: with no registration 52 in the base state the call
fails with not-found, and on the pending registration it fails with the
invalid-state error; both leave the state unchanged. -/
theorem updateAttendance_errors_witness :
    (updateAttendance egBaseSt { registration_id := 52, attended := true } 6
      = (Except.error AttendanceError.registrationNotFound, egBaseSt)) ∧
    (updateAttendance egPendingSt { registration_id := 52, attended := true } 6
      = (Except.error AttendanceError.invalidRegistrationState, egPendingSt)) :=
  ⟨(updateAttendance_errors egBaseSt
      { registration_id := 52, attended := true } 6).1 rfl,
    (updateAttendance_errors egPendingSt
      { registration_id := 52, attended := true } 6).2 egPendingReg rfl
      (by decide) (by decide)⟩

/-- Claim C9: generateCertificate fails with not-found when the
registration id is unresolved, with the invalid-state error when the
status of the registration is pending, rejected or cancelled, and with the
did-not-attend error when no attendance row of the registration has
attended = true (covering both an absent row and attended = false); each
failure leaves the state — in particular the certificates table —
unchanged. -/
theorem generateCertificate_errors (st : DBState) (rid now : Nat) :
    (st.registrations.find? (fun r => r.id == rid) = none →
      generateCertificate st rid now
        = (Except.error CertificateError.registrationNotFound, st)) ∧
    (∀ reg sem u, st.registrations.find? (fun r => r.id == rid) = some reg →
      st.seminars.find? (fun s => s.id == reg.seminar_id) = some sem →
      st.users.find? (fun v => v.id == reg.participant_id) = some u →
      (reg.status = RegistrationStatus.pending
        ∨ reg.status = RegistrationStatus.rejected
        ∨ reg.status = RegistrationStatus.cancelled) →
      generateCertificate st rid now
        = (Except.error CertificateError.invalidRegistrationState, st)) ∧
    (∀ reg sem u, st.registrations.find? (fun r => r.id == rid) = some reg →
      st.seminars.find? (fun s => s.id == reg.seminar_id) = some sem →
      st.users.find? (fun v => v.id == reg.participant_id) = some u →
      reg.status ≠ RegistrationStatus.pending →
      reg.status ≠ RegistrationStatus.rejected →
      reg.status ≠ RegistrationStatus.cancelled →
      (∀ a ∈ st.attendance, a.registration_id = rid → a.attended = false) →
      generateCertificate st rid now
        = (Except.error CertificateError.didNotAttend, st)) := by
  refine ⟨?_, ?_, ?_⟩
  · intro h
    simp [generateCertificate, h]
  · intro reg sem u hreg hsem hu hstat
    simp only [generateCertificate, hreg, hsem, hu]
    rw [if_pos hstat]
  · intro reg sem u hreg hsem hu h1 h2 h3 hatt
    have hfil : st.attendance.filter
        (fun a => a.registration_id == rid && a.attended) = [] := by
      rw [List.filter_eq_nil_iff]
      intro a ha
      simp only [Bool.and_eq_true, beq_iff_eq, not_and]
      intro hid
      simp [hatt a ha hid]
    simp [generateCertificate, hreg, hsem, hu, h1, h2, h3, hfil]

/-- Witness for C9: an unresolved id, a pending registration, and an
approved registration with no attendance row each produce the matching
error and leave the state unchanged. -/
theorem generateCertificate_errors_witness :
    generateCertificate egBaseSt 51 7
      = (Except.error CertificateError.registrationNotFound, egBaseSt) ∧
    generateCertificate egPendingSt 52 7
      = (Except.error CertificateError.invalidRegistrationState, egPendingSt) ∧
    generateCertificate egApprovedSt 51 7
      = (Except.error CertificateError.didNotAttend, egApprovedSt) :=
  ⟨(generateCertificate_errors egBaseSt 51 7).1 rfl,
    (generateCertificate_errors egPendingSt 52 7).2.1 egPendingReg
      egFreeSeminar egParticipant rfl rfl rfl (Or.inl rfl),
    (generateCertificate_errors egApprovedSt 51 7).2.2 egApprovedReg
      egFreeSeminar egParticipant rfl rfl rfl (by decide) (by decide)
      (by decide) (fun a ha _ => absurd ha (List.not_mem_nil a))⟩

/-- A cancelled registration that reuses id 51 of the approved one. -/
def egCancelled51Reg : Registration :=
  { id := 51, seminar_id := 10, participant_id := 1, registration_date := 0,
    status := RegistrationStatus.cancelled, created_at := 0 }

/-- A certificate already issued for registration 51. -/
def egCert51 : Certificate :=
  { id := 80, registration_id := 51, issue_date := 3,
    certificate_url := "/certificates/cert_51_3.txt", created_at := 3 }

/-- An attendance row for registration 51 with attended = false. -/
def egNoShowRow : Attendance :=
  { id := 70, registration_id := 51, attended := false, attendance_date := 2,
    created_at := 2 }

/-- State with an issued certificate whose registration has meanwhile
been cancelled. -/
def egCertCancelledSt : DBState :=
  { egBaseSt with
    registrations := [egCancelled51Reg],
    certificates := [egCert51] }

/-- State with an issued certificate whose attendance row has meanwhile
been flipped to attended = false. -/
def egCertNoShowSt : DBState :=
  { egBaseSt with
    registrations := [egApprovedReg],
    attendance := [egNoShowRow],
    certificates := [egCert51] }

/-- Claim C10: even when a certificate already exists for the
registration, a repeat generateCertificate call re-evaluates the gates:
a now-invalid status yields the invalid-state error and an attendance
record with attended = false yields the did-not-attend error, and in
neither case is the existing certificate returned. -/
theorem generateCertificate_recheck (st : DBState) (rid now : Nat)
    (c : Certificate) (hc : c ∈ st.certificates)
    (hcr : c.registration_id = rid) :
    (∀ reg sem u, st.registrations.find? (fun r => r.id == rid) = some reg →
      st.seminars.find? (fun s => s.id == reg.seminar_id) = some sem →
      st.users.find? (fun v => v.id == reg.participant_id) = some u →
      (reg.status = RegistrationStatus.pending
        ∨ reg.status = RegistrationStatus.rejected
        ∨ reg.status = RegistrationStatus.cancelled) →
      (generateCertificate st rid now).1
          = Except.error CertificateError.invalidRegistrationState ∧
        (generateCertificate st rid now).1 ≠ Except.ok c) ∧
    (∀ reg sem u, st.registrations.find? (fun r => r.id == rid) = some reg →
      st.seminars.find? (fun s => s.id == reg.seminar_id) = some sem →
      st.users.find? (fun v => v.id == reg.participant_id) = some u →
      reg.status ≠ RegistrationStatus.pending →
      reg.status ≠ RegistrationStatus.rejected →
      reg.status ≠ RegistrationStatus.cancelled →
      (∀ a ∈ st.attendance, a.registration_id = rid → a.attended = false) →
      (generateCertificate st rid now).1
          = Except.error CertificateError.didNotAttend ∧
        (generateCertificate st rid now).1 ≠ Except.ok c) := by
  constructor
  · intro reg sem u hreg hsem hu hstat
    have h : (generateCertificate st rid now).1
        = Except.error CertificateError.invalidRegistrationState := by
      simp only [generateCertificate, hreg, hsem, hu]
      rw [if_pos hstat]
    exact ⟨h, by simp [h]⟩
  · intro reg sem u hreg hsem hu h1 h2 h3 hatt
    have hfil : st.attendance.filter
        (fun a => a.registration_id == rid && a.attended) = [] := by
      rw [List.filter_eq_nil_iff]
      intro a ha
      simp only [Bool.and_eq_true, beq_iff_eq, not_and]
      intro hid
      simp [hatt a ha hid]
    have h : (generateCertificate st rid now).1
        = Except.error CertificateError.didNotAttend := by
      simp [generateCertificate, hreg, hsem, hu, h1, h2, h3, hfil]
    exact ⟨h, by simp [h]⟩

/-- Witness for C10: a certificate exists for registration 51, yet the
repeat call fails — with the invalid-state error once the registration
is cancelled and with the did-not-attend error once attendance is
flipped to false — instead of returning the stored certificate. -/
theorem generateCertificate_recheck_witness :
    ((generateCertificate egCertCancelledSt 51 9).1
        = Except.error CertificateError.invalidRegistrationState ∧
      (generateCertificate egCertCancelledSt 51 9).1 ≠ Except.ok egCert51) ∧
    ((generateCertificate egCertNoShowSt 51 9).1
        = Except.error CertificateError.didNotAttend ∧
      (generateCertificate egCertNoShowSt 51 9).1 ≠ Except.ok egCert51) :=
  ⟨(generateCertificate_recheck egCertCancelledSt 51 9 egCert51 (by decide)
      rfl).1 egCancelled51Reg egFreeSeminar egParticipant rfl rfl rfl
      (Or.inr (Or.inr rfl)),
    (generateCertificate_recheck egCertNoShowSt 51 9 egCert51 (by decide)
      rfl).2 egApprovedReg egFreeSeminar egParticipant rfl rfl rfl
      (by decide) (by decide) (by decide) (by decide)⟩

/-- An attendance row for registration 51 with attended = true. -/
def egAttendedRow : Attendance :=
  { id := 71, registration_id := 51, attended := true, attendance_date := 2,
    created_at := 2 }

/-- State with an approved registration and a positive attendance row,
no certificate yet. -/
def egAttendedSt : DBState :=
  { egBaseSt with
    registrations := [egApprovedReg],
    attendance := [egAttendedRow] }

/-- Claim C5: certificate issuance is idempotent — for an eligible
registration (approved/paid, attended, at most one certificate row),
calling generateCertificate twice returns the same certificate both
times (hence the same id and certificate_url), leaves exactly one
certificate row for the registration, and the second call changes
nothing. -/
theorem generateCertificate_idempotent (st : DBState) (rid now1 now2 : Nat)
    (reg : Registration) (sem : Seminar) (u : User)
    (hreg : st.registrations.find? (fun r => r.id == rid) = some reg)
    (hsem : st.seminars.find? (fun s => s.id == reg.seminar_id) = some sem)
    (hu : st.users.find? (fun v => v.id == reg.participant_id) = some u)
    (hstat : reg.status = RegistrationStatus.approved
      ∨ reg.status = RegistrationStatus.paid)
    (hatt : st.attendance.filter
      (fun a => a.registration_id == rid && a.attended) ≠ [])
    (hcert : (st.certificates.filter
      (fun c => c.registration_id == rid)).length ≤ 1) :
    ((generateCertificate st rid now1).1).isOk = true ∧
    (generateCertificate (generateCertificate st rid now1).2 rid now2).1
      = (generateCertificate st rid now1).1 ∧
    (((generateCertificate (generateCertificate st rid now1).2 rid
        now2).2).certificates.filter
      (fun c => c.registration_id == rid)).length = 1 ∧
    (generateCertificate (generateCertificate st rid now1).2 rid now2).2
      = (generateCertificate st rid now1).2 := by
  have hbad : ¬(reg.status = RegistrationStatus.pending
      ∨ reg.status = RegistrationStatus.rejected
      ∨ reg.status = RegistrationStatus.cancelled) := by
    rcases hstat with h | h <;> simp [h]
  cases hfind : st.certificates.find? (fun c => c.registration_id == rid) with
  | some c =>
    have h1 : generateCertificate st rid now1 = (Except.ok c, st) := by
      simp only [generateCertificate, hreg, hsem, hu, hfind]
      rw [if_neg hbad, if_neg hatt]
    have h2 : generateCertificate st rid now2 = (Except.ok c, st) := by
      simp only [generateCertificate, hreg, hsem, hu, hfind]
      rw [if_neg hbad, if_neg hatt]
    have hp : (c.registration_id == rid) = true :=
      @List.find?_some Certificate (fun c2 => c2.registration_id == rid) c
        st.certificates hfind
    have hmem : c ∈ st.certificates.filter (fun c2 => c2.registration_id == rid) :=
      List.mem_filter.mpr ⟨List.mem_of_find?_eq_some hfind, hp⟩
    have hpos : 0 < (st.certificates.filter
        (fun c2 => c2.registration_id == rid)).length :=
      List.length_pos.mpr (List.ne_nil_of_mem hmem)
    rw [h1]
    refine ⟨rfl, ?_, ?_, ?_⟩
    · show (generateCertificate st rid now2).1 = Except.ok c
      rw [h2]
    · show ((generateCertificate st rid now2).2.certificates.filter
        (fun c2 => c2.registration_id == rid)).length = 1
      rw [h2]
      show (st.certificates.filter
        (fun c2 => c2.registration_id == rid)).length = 1
      omega
    · show (generateCertificate st rid now2).2 = st
      rw [h2]
  | none =>
    have hnil : st.certificates.filter (fun c => c.registration_id == rid) = [] :=
      List.filter_eq_nil_iff.mpr (List.find?_eq_none.mp hfind)
    have h1 : generateCertificate st rid now1
        = (Except.ok (newCertificate st rid now1),
          { st with
            certificates := st.certificates ++ [newCertificate st rid now1],
            nextId := st.nextId + 1 }) := by
      simp only [generateCertificate, hreg, hsem, hu, hfind]
      rw [if_neg hbad, if_neg hatt]
    have hfind2 : (st.certificates ++ [newCertificate st rid now1]).find?
          (fun c => c.registration_id == rid)
        = some (newCertificate st rid now1) := by
      rw [List.find?_append, hfind]
      simp [newCertificate]
    have h2 : generateCertificate (generateCertificate st rid now1).2 rid now2
        = (Except.ok (newCertificate st rid now1),
          (generateCertificate st rid now1).2) := by
      rw [h1]
      simp only [generateCertificate, hreg, hsem, hu, hfind2]
      rw [if_neg hbad, if_neg hatt]
    refine ⟨by rw [h1]; rfl, ?_, ?_, ?_⟩
    · rw [h2, h1]
    · rw [h2, h1]
      simp [List.filter_append, hnil, newCertificate]
    · rw [h2]

/-- Witness for C5: in the attended state the first call issues a
certificate, the second call returns it unchanged, exactly one
certificate row for registration 51 remains, and the state is stable. -/
theorem generateCertificate_idempotent_witness :
    ((generateCertificate egAttendedSt 51 7).1).isOk = true ∧
    (generateCertificate (generateCertificate egAttendedSt 51 7).2 51 9).1
      = (generateCertificate egAttendedSt 51 7).1 ∧
    (((generateCertificate (generateCertificate egAttendedSt 51 7).2 51
        9).2).certificates.filter
      (fun c => c.registration_id == 51)).length = 1 ∧
    (generateCertificate (generateCertificate egAttendedSt 51 7).2 51 9).2
      = (generateCertificate egAttendedSt 51 7).2 :=
  generateCertificate_idempotent egAttendedSt 51 7 9 egApprovedReg
    egFreeSeminar egParticipant rfl rfl rfl (Or.inl rfl) (by decide)
    (by decide)

/-- Claim C6: deleteSeminar returns false and leaves every table
untouched when the seminar id is unresolved; otherwise it returns true
and removes exactly the certificates and attendance rows of the
registrations of the seminar, all its registrations and the seminar
row itself, while every user row survives. -/
theorem deleteSeminar_cascade (st : DBState) (sid : Nat) :
    (st.seminars.find? (fun s => s.id == sid) = none →
      deleteSeminar st sid = (false, st)) ∧
    (∀ sem, st.seminars.find? (fun s => s.id == sid) = some sem →
      (deleteSeminar st sid).1 = true ∧
      (deleteSeminar st sid).2.users = st.users ∧
      (deleteSeminar st sid).2.seminars
        = st.seminars.filter (fun s => ! (s.id == sid)) ∧
      (deleteSeminar st sid).2.registrations
        = st.registrations.filter (fun r => ! (r.seminar_id == sid)) ∧
      (deleteSeminar st sid).2.certificates
        = st.certificates.filter (fun c =>
            ! ((st.registrations.filter (fun r => r.seminar_id == sid)).map
                (fun r => r.id)).contains c.registration_id) ∧
      (deleteSeminar st sid).2.attendance
        = st.attendance.filter (fun a =>
            ! ((st.registrations.filter (fun r => r.seminar_id == sid)).map
                (fun r => r.id)).contains a.registration_id)) := by
  constructor
  · intro h
    simp [deleteSeminar, h]
  · intro sem h
    by_cases hemp : ((st.registrations.filter
        (fun r => r.seminar_id == sid)).map (fun r => r.id)).isEmpty
    · have hmap : (st.registrations.filter
          (fun r => r.seminar_id == sid)).map (fun r => r.id) = [] :=
        List.isEmpty_iff.mp hemp
      have hnil : st.registrations.filter (fun r => r.seminar_id == sid) = [] :=
        List.map_eq_nil_iff.mp hmap
      have hregs : st.registrations.filter (fun r => ! (r.seminar_id == sid))
          = st.registrations := by
        rw [List.filter_eq_self]
        intro r hr
        have := List.filter_eq_nil_iff.mp hnil r hr
        simpa using this
      have hcerts : st.certificates.filter (fun c =>
          ! ((st.registrations.filter (fun r => r.seminar_id == sid)).map
              (fun r => r.id)).contains c.registration_id)
          = st.certificates := by
        rw [List.filter_eq_self]
        intro c hc2
        simp [hmap]
      have hatts : st.attendance.filter (fun a =>
          ! ((st.registrations.filter (fun r => r.seminar_id == sid)).map
              (fun r => r.id)).contains a.registration_id)
          = st.attendance := by
        rw [List.filter_eq_self]
        intro a ha
        simp [hmap]
      refine ⟨?_, ?_, ?_, ?_, ?_, ?_⟩ <;>
        simp [deleteSeminar, h, hemp, hregs, hcerts, hatts, hmap]
    · refine ⟨?_, ?_, ?_, ?_, ?_, ?_⟩ <;>
        simp [deleteSeminar, h, hemp]

/-- State with the full dependency chain: a seminar, a registration for
it, an attendance row and a certificate for the registration. -/
def egCascadeSt : DBState :=
  { egBaseSt with
    registrations := [egApprovedReg],
    attendance := [egAttendedRow],
    certificates := [egCert51] }

/-- Witness for C6: deleting seminar 10 empties the seminar,
registration, attendance and certificate tables of the cascade state and
keeps the users; an unknown seminar id returns false and changes
nothing. -/
theorem deleteSeminar_cascade_witness :
    ((deleteSeminar egCascadeSt 10).1 = true ∧
      (deleteSeminar egCascadeSt 10).2.users = egCascadeSt.users ∧
      (deleteSeminar egCascadeSt 10).2.seminars = [] ∧
      (deleteSeminar egCascadeSt 10).2.registrations = [] ∧
      (deleteSeminar egCascadeSt 10).2.certificates = [] ∧
      (deleteSeminar egCascadeSt 10).2.attendance = []) ∧
    deleteSeminar egCascadeSt 99 = (false, egCascadeSt) := by
  have h := (deleteSeminar_cascade egCascadeSt 10).2 egFreeSeminar rfl
  have h2 := (deleteSeminar_cascade egCascadeSt 99).1 rfl
  exact ⟨⟨h.1, h.2.1, h.2.2.1.trans (by decide), h.2.2.2.1.trans (by decide),
    h.2.2.2.2.1.trans (by decide), h.2.2.2.2.2.trans (by decide)⟩, h2⟩

/-- Claim C7: updateAttendance keeps at most one attendance row per
registration — it inserts only when no row exists for the registration
and otherwise updates the existing rows in place — and on an eligible
registration with no prior row, recording attended = true and then
attended = false leaves exactly one attendance row for the registration,
with attended = false. -/
theorem updateAttendance_unique (st : DBState) (rid : Nat) (b : Bool)
    (now : Nat) :
    ((st.attendance.filter (fun a => a.registration_id == rid)).length ≤ 1 →
      (((updateAttendance st { registration_id := rid, attended := b }
          now).2).attendance.filter
        (fun a => a.registration_id == rid)).length ≤ 1) ∧
    (∀ reg, st.registrations.find? (fun r => r.id == rid) = some reg →
      (reg.status = RegistrationStatus.approved
        ∨ reg.status = RegistrationStatus.paid) →
      (∀ a ∈ st.attendance, a.registration_id ≠ rid) →
      ∀ n1 n2,
        ((((updateAttendance
            (updateAttendance st { registration_id := rid, attended := true }
              n1).2
            { registration_id := rid, attended := false }
            n2).2).attendance.filter
          (fun a => a.registration_id == rid)).length = 1 ∧
        ∀ a ∈ ((updateAttendance
            (updateAttendance st { registration_id := rid, attended := true }
              n1).2
            { registration_id := rid, attended := false }
            n2).2).attendance,
          a.registration_id = rid → a.attended = false)) := by
  constructor
  · intro hle
    cases hreg : st.registrations.find? (fun r => r.id == rid) with
    | none =>
      have hst : (updateAttendance st { registration_id := rid, attended := b }
          now).2 = st := by
        simp [updateAttendance, hreg]
      rw [hst]
      exact hle
    | some reg =>
      by_cases hstat : reg.status ≠ RegistrationStatus.approved
          ∧ reg.status ≠ RegistrationStatus.paid
      · have hst : (updateAttendance st { registration_id := rid, attended := b }
            now).2 = st := by
          simp only [updateAttendance, hreg]
          rw [if_pos hstat]
        rw [hst]
        exact hle
      · cases hatt0 : st.attendance.find? (fun a => a.registration_id == rid) with
        | some a0 =>
          have hst : (updateAttendance st
              { registration_id := rid, attended := b } now).2
              = { st with attendance := st.attendance.map (fun a =>
                  if a.registration_id == rid then
                    { a with attended := b, attendance_date := now }
                  else a) } := by
            simp only [updateAttendance, hreg, hatt0]
            rw [if_neg hstat]
          rw [hst]
          show (List.filter (fun a => a.registration_id == rid)
            (st.attendance.map (fun a =>
              if a.registration_id == rid then
                { a with attended := b, attendance_date := now }
              else a))).length ≤ 1
          have hcong : ∀ x ∈ st.attendance,
              (((fun a : Attendance => a.registration_id == rid)
                ∘ (fun a : Attendance =>
                  if a.registration_id == rid then
                    { a with attended := b, attendance_date := now }
                  else a)) x)
                ↔ ((fun a : Attendance => a.registration_id == rid) x) := by
            intro x _
            by_cases hx : x.registration_id = rid <;> simp [hx]
          rw [← List.countP_eq_length_filter, List.countP_map,
            List.countP_congr hcong, List.countP_eq_length_filter]
          exact hle
        | none =>
          have hst : (updateAttendance st
              { registration_id := rid, attended := b } now).2
              = { st with
                  attendance := st.attendance ++ [newAttendance st rid b now],
                  nextId := st.nextId + 1 } := by
            simp only [updateAttendance, hreg, hatt0]
            rw [if_neg hstat]
          rw [hst]
          have hnil : st.attendance.filter
              (fun a => a.registration_id == rid) = [] :=
            List.filter_eq_nil_iff.mpr (List.find?_eq_none.mp hatt0)
          show (List.filter (fun a => a.registration_id == rid)
            (st.attendance ++ [newAttendance st rid b now])).length ≤ 1
          simp [List.filter_append, hnil, newAttendance]
  · intro reg hreg hstat hnone n1 n2
    have hcond : ¬(reg.status ≠ RegistrationStatus.approved
        ∧ reg.status ≠ RegistrationStatus.paid) := by
      rcases hstat with h | h <;> simp [h]
    have hb : st.attendance.find? (fun a => a.registration_id == rid) = none :=
      List.find?_eq_none.mpr (fun a ha => by simp [hnone a ha])
    have hnil : st.attendance.filter (fun a => a.registration_id == rid) = [] :=
      List.filter_eq_nil_iff.mpr (List.find?_eq_none.mp hb)
    have hst1 : (updateAttendance st
        { registration_id := rid, attended := true } n1).2
        = { st with
            attendance := st.attendance ++ [newAttendance st rid true n1],
            nextId := st.nextId + 1 } := by
      simp only [updateAttendance, hreg, hb]
      rw [if_neg hcond]
    have hfind2 : (st.attendance ++ [newAttendance st rid true n1]).find?
        (fun a => a.registration_id == rid)
        = some (newAttendance st rid true n1) := by
      rw [List.find?_append, hb]
      simp [newAttendance]
    have hst2 : (updateAttendance
        (updateAttendance st { registration_id := rid, attended := true } n1).2
        { registration_id := rid, attended := false } n2).2
        = { st with
            attendance := (st.attendance
              ++ [newAttendance st rid true n1]).map (fun a =>
                if a.registration_id == rid then
                  { a with attended := false, attendance_date := n2 }
                else a),
            nextId := st.nextId + 1 } := by
      rw [hst1]
      simp only [updateAttendance, hreg, hfind2]
      rw [if_neg hcond]
    rw [hst2]
    have hmapid : st.attendance.map (fun a =>
        if a.registration_id == rid then
          { a with attended := false, attendance_date := n2 }
        else a) = st.attendance := by
      calc st.attendance.map (fun a =>
            if a.registration_id == rid then
              { a with attended := false, attendance_date := n2 }
            else a)
          = st.attendance.map id :=
            List.map_congr_left (fun a ha => by simp [hnone a ha])
        _ = st.attendance := List.map_id _
    constructor
    · show (List.filter (fun a => a.registration_id == rid)
        ((st.attendance ++ [newAttendance st rid true n1]).map (fun a =>
          if a.registration_id == rid then
            { a with attended := false, attendance_date := n2 }
          else a))).length = 1
      rw [List.map_append, hmapid]
      simp [List.filter_append, hnil, newAttendance]
    · intro a ha hid
      have ha2 : a ∈ (st.attendance
          ++ [newAttendance st rid true n1]).map (fun a =>
            if a.registration_id == rid then
              { a with attended := false, attendance_date := n2 }
            else a) := ha
      rw [List.map_append, hmapid] at ha2
      rcases List.mem_append.mp ha2 with h | h
      · exact absurd hid (hnone a h)
      · simp [newAttendance] at h
        rw [h]

/-- Witness for C7: on the approved registration with no prior
attendance row, one call keeps the per-registration row count at most 1,
and the record-true-then-false sequence leaves exactly one row. -/
theorem updateAttendance_unique_witness :
    (((updateAttendance egApprovedSt
        { registration_id := 51, attended := true } 6).2).attendance.filter
      (fun a => a.registration_id == 51)).length ≤ 1 ∧
    (((updateAttendance
        (updateAttendance egApprovedSt
          { registration_id := 51, attended := true } 6).2
        { registration_id := 51, attended := false } 8).2).attendance.filter
      (fun a => a.registration_id == 51)).length = 1 :=
  ⟨(updateAttendance_unique egApprovedSt 51 true 6).1 (by decide),
    ((updateAttendance_unique egApprovedSt 51 true 6).2 egApprovedReg rfl
      (Or.inl rfl) (by decide) 6 8).1⟩

end SeminarManager
